import Mathlib

/-!
Verification of the OpenClaw Zoom voice agent core (call navigation state
machine, DTMF entry, µ-law transcoding, turn arbitration, inbound audio
gating), shallowly embedded from the JavaScript sources
(`src/bridge.js`, `src/gemini-live-agent.js`).
-/

namespace ZoomAgent

/-! ### µ-law codec (src/gemini-live-agent.js, lines 75–136)

`ULAW_DECODE` table: for a byte `i`,
`u = ~i & 0xFF; sign = u & 0x80; exp = (u >> 4) & 7; man = u & 0xF;
 s = ((man << 3) + 0x84) << exp; s -= 0x84; value = sign ? -s : s`.
The table is only indexed by byte values 0–255, so we reduce the input
mod 256 (identity on actual byte inputs). -/
def ulawDecode (i : Nat) : Int :=
  let u : Nat := 255 - (i % 256)
  let sign : Nat := u &&& 0x80
  let expn : Nat := (u >>> 4) &&& 0x07
  let man : Nat := u &&& 0x0F
  let s : Int := (((man <<< 3) + 0x84) <<< expn : Nat) - 0x84
  if sign ≠ 0 then -s else s

/-- Exponent search of `pcmToUlaw`: the source loop
`for (let mask = 0x4000; (sample & mask) === 0 && exp > 0; exp--, mask >>= 1)`
unrolled (it scans bits 14 down to 8 of the biased magnitude). -/
def ulawExponent (s : Nat) : Nat :=
  if s &&& 0x4000 ≠ 0 then 7
  else if s &&& 0x2000 ≠ 0 then 6
  else if s &&& 0x1000 ≠ 0 then 5
  else if s &&& 0x0800 ≠ 0 then 4
  else if s &&& 0x0400 ≠ 0 then 3
  else if s &&& 0x0200 ≠ 0 then 2
  else if s &&& 0x0100 ≠ 0 then 1
  else 0

/-- Function `pcmToUlaw(sample)` (src/gemini-live-agent.js lines 92–103): sign
extraction, clamp at 32635, bias 0x84, exponent/mantissa packing, final
complement.  `~x & 0xFF = 255 - x` for the packed `x ≤ 255`. -/
def pcmToUlaw (sample : Int) : Nat :=
  let sign : Nat := if sample < 0 then 0x80 else 0
  let mag : Int := if sample < 0 then -sample else sample
  let mag : Int := if mag > 32635 then 32635 else mag
  let biased : Nat := (mag + 0x84).toNat
  let expn : Nat := ulawExponent biased
  let mantissa : Nat := (biased >>> (expn + 3)) &&& 0x0F
  255 - (sign ||| (expn <<< 4) ||| mantissa)

/-- JS arithmetic shift `x >> 1` on 32-bit ints rounds toward −∞,
i.e. floor division by 2 (all sums here fit in 32 bits). -/
def asr1 (x : Int) : Int := Int.fdiv x 2

/-- Loop body of `ulawToPcm16k` (src/gemini-live-agent.js lines 108–123):
for each input byte it writes the interpolated sample
`(prev + s1) >> 1` followed by the decoded sample `s1`, where `prev` is
the previous decoded sample (the carry `_lastSample` for the first byte
of a frame). -/
def ulawToPcm16kGo (prev : Int) : List Nat → List Int
  | [] => []
  | b :: rest =>
    let s1 := ulawDecode b
    asr1 (prev + s1) :: s1 :: ulawToPcm16kGo s1 rest

/-- Function `ulawToPcm16k(ulawBuf)` with the module-level `_lastSample` carry made
an explicit parameter: returns the 16 kHz PCM samples (2 per input byte,
in buffer order: interpolated then original) and the updated carry
`ULAW_DECODE[ulawBuf[n-1]]`.  (For an empty frame the source stores an
out-of-bounds read — `undefined` — into `_lastSample`; no specified
behaviour depends on that case and we keep the carry unchanged there.) -/
def ulawToPcm16k (ulawBuf : List Nat) (lastSample : Int) : List Int × Int :=
  (ulawToPcm16kGo lastSample ulawBuf,
   match ulawBuf.getLast? with
   | some b => ulawDecode b
   | none => lastSample)

/-- Hybrid-agent decoder variant (src/bridge.js lines 600–610): for
each input byte it writes the decoded sample `s1` followed by the
forward midpoint `(s1 + s2) >> 1`, where `s2` is the next byte's
decoded sample — or `s1` itself at the end of the frame
(`s2 = (i < n - 1) ? ULAW_DECODE[ulawBuf[i + 1]] : s1`).  This variant
keeps no state across frames: it is a function of the frame alone. -/
def ulawToPcm16kHybrid : List Nat → List Int
  | [] => []
  | [b] =>
    let s1 := ulawDecode b
    [s1, asr1 (s1 + s1)]
  | b :: b2 :: rest =>
    let s1 := ulawDecode b
    let s2 := ulawDecode b2
    s1 :: asr1 (s1 + s2) :: ulawToPcm16kHybrid (b2 :: rest)

/-- The source `pcm24kToUlaw8k` reads `pcmBuf.readInt16LE(i * 6)` for
`i < floor(totalSamples / 3)`, i.e. every 3rd 16-bit sample. -/
def everyThird : List Int → List Int
  | a :: _ :: _ :: rest => a :: everyThird rest
  | _ => []

/-- Function `pcm24kToUlaw8k(pcmBuf)` (src/gemini-live-agent.js lines 126–136) on
the sample-level view of the buffer: keep every 3rd sample and compand
each retained sample. -/
def pcm24kToUlaw8k (pcmBuf : List Int) : List Nat :=
  (everyThird pcmBuf).map pcmToUlaw

theorem ulawToPcm16kGo_length (l : List Nat) :
    ∀ prev, (ulawToPcm16kGo prev l).length = 2 * l.length := by
  induction l with
  | nil => intro prev; simp [ulawToPcm16kGo]
  | cons b rest ih =>
    intro prev
    simp [ulawToPcm16kGo, ih]
    ring

theorem everyThird_length : ∀ l : List Int, (everyThird l).length = l.length / 3
  | [] => by simp [everyThird]
  | [_] => by simp [everyThird]
  | [_, _] => by simp [everyThird]
  | _ :: _ :: _ :: rest => by
    have ih := everyThird_length rest
    simp [everyThird, ih]
    omega

theorem pcm24kToUlaw8k_length (l : List Int) :
    (pcm24kToUlaw8k l).length = l.length / 3 := by
  simp [pcm24kToUlaw8k, everyThird_length]

/-- C5 counterexample: on the narrowband input `[0, 0, 0]` (N = 3
samples), decoding to wideband and re-encoding yields 2 samples, not 3:
the decoder upsamples 2× (targeting 16 kHz) while the encoder decimates
by 3 (expecting 24 kHz input), so the round trip gives ⌊2N/3⌋. -/
theorem roundtrip_not_length_preserving :
    (pcm24kToUlaw8k (ulawToPcm16k [0, 0, 0] 0).1).length = 2 ∧
    ¬ (pcm24kToUlaw8k (ulawToPcm16k [0, 0, 0] 0).1).length = 3 := by
  decide

/-- C5 (amended): for every narrowband input of N samples and any carry,
`pcm24kToUlaw8k` applied to the output of `ulawToPcm16k` yields exactly
⌊2N/3⌋ narrowband samples (N only when N = 0). -/
theorem roundtrip_length (buf : List Nat) (c : Int) :
    (pcm24kToUlaw8k (ulawToPcm16k buf c).1).length = 2 * buf.length / 3 := by
  simp [ulawToPcm16k, pcm24kToUlaw8k_length, ulawToPcm16kGo_length]

/-- C6 counterexample: the hybrid-agent decoder variant keeps no
cross-frame carry, so the claimed boundary continuity fails for it.
For the consecutive frames A = [0] and B = [255, 255]: A's last decoded
sample is −32124, so an interpolation carried over from A would be
`(−32124 + 0) >> 1 = −16062`; but the hybrid decode of B — a function
of B alone, with no carry input for A's trailing sample to reach — has
first interpolated sample 0, computed from B's own first two decoded
samples. -/
theorem hybrid_decode_breaks_boundary_continuity :
    ulawDecode 0 = -32124 ∧
    asr1 (ulawDecode 0 + ulawDecode 255) = -16062 ∧
    (ulawToPcm16kHybrid [255, 255])[1]? = some 0 ∧
    ¬ (ulawToPcm16kHybrid [255, 255])[1]? =
        some (asr1 (ulawDecode 0 + ulawDecode 255)) := by
  decide

/-- C6 (amended): boundary continuity holds for the carry-based
upsampling decoder (`ulawToPcm16k`, the gemini-live-agent variant with
the `_lastSample` carry) but not for the carry-free hybrid-agent
variant.  For consecutive frames A (non-empty, last byte `a`) and B
(non-empty, first byte `b`), the carry produced by decoding A is A's
last decoded sample `ulawDecode a`, and the first sample of B's decode
is the interpolation `(ulawDecode a + ulawDecode b) >> 1` — computed
from A's carried-over trailing sample, not from silence/zero. -/
theorem decode_boundary_continuity (A B : List Nat) (c : Int) (a b : Nat)
    (hA : A.getLast? = some a) (hB : B.head? = some b) :
    (ulawToPcm16k A c).2 = ulawDecode a ∧
    (ulawToPcm16k B (ulawToPcm16k A c).2).1.head? =
      some (asr1 (ulawDecode a + ulawDecode b)) := by
  have hcarry : (ulawToPcm16k A c).2 = ulawDecode a := by
    simp [ulawToPcm16k, hA]
  refine ⟨hcarry, ?_⟩
  cases B with
  | nil => simp at hB
  | cons b0 rest =>
    simp at hB
    subst hB
    simp [ulawToPcm16k, ulawToPcm16kGo, hA]

/-- C6 witness: concrete frames A = [0, 17], B = [34], carry 0. -/
theorem decode_boundary_continuity_witness :
    ([0, 17] : List Nat).getLast? = some 17 ∧
    ([34] : List Nat).head? = some 34 ∧
    ((ulawToPcm16k [0, 17] 0).2 = ulawDecode 17 ∧
     (ulawToPcm16k [34] (ulawToPcm16k [0, 17] 0).2).1.head? =
       some (asr1 (ulawDecode 17 + ulawDecode 34))) :=
  ⟨by decide, by decide,
   decode_boundary_continuity [0, 17] [34] 0 17 34 (by decide) (by decide)⟩

/-! ### ZoomDialer — DTMF join state machine (src/bridge.js, lines 58–270) -/

/-- The state strings used by `ZoomDialer.setState`. -/
inductive DialerState
  | IDLE | DIALING | ANSWERED | ENTER_MEETING_ID | ENTER_PASSCODE
  | IN_MEETING | FAILED | ENDED
deriving DecidableEq, Repr

/-- Mutable fields of a `ZoomDialer` instance relevant to navigation. -/
structure Dialer where
  state : DialerState
  callControlId : Option String
  callLegId : Option String
  retryCount : Nat
  maxRetries : Nat
deriving DecidableEq, Repr

/-- Constructor state: `state = 'IDLE'`, ids null, `retryCount = 0`,
`maxRetries = 3` (src/bridge.js lines 67–71). -/
def initialDialer : Dialer :=
  { state := .IDLE, callControlId := none, callLegId := none,
    retryCount := 0, maxRetries := 3 }

/-- One Telnyx `send_dtmf` action: the whole digit string of a field is
passed as a single request (`ZoomDialer.sendDTMF`, lines 230–240, posts
`digits` with `duration_millis: 250` in one call). -/
inductive DtmfAction
  | sendDtmf (digits : String) (durationMillis : Nat)
deriving DecidableEq, Repr

/-- JS `\s` whitespace codepoints (the set matched by `/\s/g` in
`meetingId.replace(/\s/g, '')`). -/
def jsWsCodes : List Nat :=
  [9, 10, 11, 12, 13, 32, 160, 5760,
   8192, 8193, 8194, 8195, 8196, 8197, 8198, 8199, 8200, 8201, 8202,
   8232, 8233, 8239, 8287, 12288, 65279]

def jsIsWs (c : Char) : Bool := c.toNat ∈ jsWsCodes

/-- The source expression `meetingId.replace(/\s/g, '')`. -/
def stripWhitespace (s : String) : String :=
  ⟨s.data.filter (fun c => !(jsIsWs c))⟩

/-- DTMF actions issued by `ZoomDialer.enterMeetingId` (lines 185–197):
one `sendDTMF` of the whitespace-stripped meeting id plus `'#'`. -/
def enterMeetingIdActions (meetingId : String) : List DtmfAction :=
  [.sendDtmf (stripWhitespace meetingId ++ "#") 250]

/-- DTMF actions issued by `ZoomDialer.enterPasscode` (lines 200–220):
one `sendDTMF` of `passcode + '#'` when the passcode is non-empty
(JS truthiness of the string), else a single `'#'` to skip. -/
def enterPasscodeActions (passcode : String) : List DtmfAction :=
  if passcode ≠ "" then [.sendDtmf (passcode ++ "#") 250]
  else [.sendDtmf "#" 250]

/-- Method `confirmJoined` (lines 223–227): transition to `IN_MEETING`. -/
def confirmJoined (d : Dialer) : Dialer := { d with state := .IN_MEETING }

/-- Full DTMF trace of one undisturbed ZoomDialer navigation
(meeting-id entry, then passcode entry / skip). -/
def dialerNavigationDtmf (meetingId passcode : String) : List DtmfAction :=
  enterMeetingIdActions meetingId ++ enterPasscodeActions passcode

/-- Effect of one `handleFailure` call (src/bridge.js lines 243–256):
either a retry (`setTimeout(() => this.dial(), delay)`) or the terminal
`failed` report `{ reason, retries }` emitted to the caller. -/
inductive FailureEffect
  | scheduleRedial (delayMs : Nat)
  | emitFailed (reason : String) (retries : Nat)
deriving DecidableEq, Repr

/-- Method `ZoomDialer.handleFailure(reason)`: if `retryCount < maxRetries`,
increment the counter, return to `IDLE` and schedule a re-dial after
`min(2000 * 2^retryCount, 30000)` ms (counter already incremented);
otherwise go to `FAILED` and emit `{ reason, retries: retryCount }`. -/
def handleFailure (d : Dialer) (reason : String) : Dialer × FailureEffect :=
  if d.retryCount < d.maxRetries then
    let rc := d.retryCount + 1
    ({ d with state := .IDLE, retryCount := rc },
     .scheduleRedial (min (2000 * 2 ^ rc) 30000))
  else
    ({ d with state := .FAILED }, .emitFailed reason d.retryCount)

/-- Runs `n` consecutive navigation failures, each invoking `handleFailure`;
collects the effects in order. -/
def failuresTrace (d : Dialer) (reason : String) : Nat → Dialer × List FailureEffect
  | 0 => (d, [])
  | n + 1 =>
    let (d1, e) := handleFailure d reason
    let (d2, es) := failuresTrace d1 reason n
    (d2, e :: es)

/-- Request issued by `dial()` when the guard passes: one outbound
`POST /calls` to the telephony collaborator. -/
inductive DialEffect
  | createCall
deriving DecidableEq, Repr

/-- Method `ZoomDialer.dial()` (src/bridge.js lines 100–139).  The guard
`if (state !== 'IDLE' && state !== 'FAILED') return;` makes it a no-op
on an active session.  Otherwise it moves to `DIALING` and issues the
call-create request; `apiResult` is the collaborator's response
(`some (call_control_id, call_leg_id)` on success, `none` when the
request throws, which routes into `handleFailure 'DIAL_ERROR'` — that
call's redial scheduling is modelled by `handleFailure` itself). -/
def dial (d : Dialer) (apiResult : Option (String × String)) :
    Dialer × List DialEffect :=
  if d.state ≠ .IDLE ∧ d.state ≠ .FAILED then (d, [])
  else
    let d1 := { d with state := .DIALING }
    match apiResult with
    | some ids =>
      ({ d1 with callControlId := some ids.1, callLegId := some ids.2 },
       [.createCall])
    | none => ((handleFailure d1 "DIAL_ERROR").1, [.createCall])

theorem jsIsWs_digit (c : Char) (h : 48 ≤ c.toNat ∧ c.toNat ≤ 57) :
    jsIsWs c = false := by
  simp only [jsIsWs, jsWsCodes, List.mem_cons, List.not_mem_nil, or_false,
    decide_eq_false_iff_not]
  intro hmem
  obtain h' | h' | h' | h' | h' | h' | h' | h' | h' | h' | h' | h' | h' |
    h' | h' | h' | h' | h' | h' | h' | h' | h' | h' | h' | h' := hmem <;> omega

/-- C2: for digit strings D and P, identifier entry transmits exactly
`D ++ "#"` as one single `send_dtmf` action, and passcode entry
transmits exactly `P ++ "#"` (just `"#"` when P is empty) as one single
action — never more than one telephony action per field, never one tone
per digit. -/
theorem dtmf_single_batched_action (D P : String)
    (hD : ∀ c ∈ D.data, 48 ≤ c.toNat ∧ c.toNat ≤ 57) :
    enterMeetingIdActions D = [.sendDtmf (D ++ "#") 250] ∧
    (enterMeetingIdActions D).length = 1 ∧
    enterPasscodeActions P =
      [.sendDtmf (if P = "" then "#" else P ++ "#") 250] ∧
    (enterPasscodeActions P).length = 1 := by
  have hstrip : stripWhitespace D = D := by
    show String.mk (D.data.filter _) = D
    have : D.data.filter (fun c => !(jsIsWs c)) = D.data := by
      apply List.filter_eq_self.mpr
      intro c hc
      simp [jsIsWs_digit c (hD c hc)]
    rw [this]
  refine ⟨?_, ?_, ?_, ?_⟩
  · simp [enterMeetingIdActions, hstrip]
  · simp [enterMeetingIdActions]
  · by_cases hP : P = "" <;> simp [enterPasscodeActions, hP]
  · by_cases hP : P = "" <;> simp [enterPasscodeActions, hP]

/-- C2 witness: D = "83914076399", P = "953856". -/
theorem dtmf_single_batched_action_witness :
    (∀ c ∈ ("83914076399" : String).data, 48 ≤ c.toNat ∧ c.toNat ≤ 57) ∧
    enterMeetingIdActions "83914076399" =
      [.sendDtmf ("83914076399" ++ "#") 250] ∧
    enterPasscodeActions "953856" =
      [.sendDtmf (if ("953856" : String) = "" then "#" else "953856" ++ "#") 250] :=
  ⟨by decide,
   (dtmf_single_batched_action "83914076399" "953856" (by decide)).1,
   (dtmf_single_batched_action "83914076399" "953856" (by decide)).2.2.1⟩

/-- C3: with `maxRetries = 3` (the constructor default), 4 consecutive
failures from the initial dialer state produce exactly 3 scheduled
re-dials (with the exponentially backed-off, capped delays), then the
4th failure transitions to `FAILED` and reports the reason with retry
count 3 — a 4th re-dial is never scheduled. -/
theorem retry_bound (reason : String) :
    (failuresTrace initialDialer reason 4).2 =
      [.scheduleRedial 4000, .scheduleRedial 8000, .scheduleRedial 16000,
       .emitFailed reason 3] ∧
    (failuresTrace initialDialer reason 4).1.state = .FAILED ∧
    (failuresTrace initialDialer reason 4).1.retryCount = 3 := by
  refine ⟨?_, ?_, ?_⟩ <;>
    simp [failuresTrace, handleFailure, initialDialer]

/-- C10: calling `dial()` on a dialer whose state is neither `IDLE` nor
`FAILED` issues no outbound call request and leaves every field
(state, callControlId, callLegId, retryCount, maxRetries) unchanged. -/
theorem dial_guard_frame (d : Dialer) (apiResult : Option (String × String))
    (h1 : d.state ≠ .IDLE) (h2 : d.state ≠ .FAILED) :
    dial d apiResult = (d, []) := by
  simp [dial, h1, h2]

/-- C10 witness: a dialer mid-navigation (`ENTER_PASSCODE`, an active
call leg): a second concurrent `dial()` is a pure no-op. -/
theorem dial_guard_frame_witness :
    (Dialer.mk .ENTER_PASSCODE (some "cc1") (some "leg1") 1 3).state ≠ .IDLE ∧
    (Dialer.mk .ENTER_PASSCODE (some "cc1") (some "leg1") 1 3).state ≠ .FAILED ∧
    dial (Dialer.mk .ENTER_PASSCODE (some "cc1") (some "leg1") 1 3) none =
      (Dialer.mk .ENTER_PASSCODE (some "cc1") (some "leg1") 1 3, []) :=
  ⟨by decide, by decide,
   dial_guard_frame _ none (by decide) (by decide)⟩

/-! ### Agent DTMF join sequence (src/gemini-live-agent.js, lines 607–637)

The `main` join sequence (assuming the call stays alive): send
`meetingId#`, then `#` to skip the participant id, then — only when a
passcode was supplied on the CLI — `passcode#`.  With no passcode, no
further tone is sent before the in-meeting gate opens. -/
def joinSequenceDtmf (meetingId : String) (passcode : Option String) :
    List DtmfAction :=
  [.sendDtmf (meetingId ++ "#") 300, .sendDtmf "#" 300] ++
    (match passcode with
     | some p => [.sendDtmf (p ++ "#") 300]
     | none => [])

/-- C4 counterexample: for meeting id "83914076399" with no passcode,
the agent join sequence sends exactly two DTMF transmissions
(`"83914076399#"`, then `"#"`), not the claimed three — no second `"#"`
is ever sent for the missing passcode.  The ZoomDialer navigation is
also two transmissions (there the single `"#"` is the passcode skip and
there is no attendee-id step). -/
theorem join_sequence_not_three_sends :
    joinSequenceDtmf "83914076399" none ≠
      [.sendDtmf "83914076399#" 300, .sendDtmf "#" 300, .sendDtmf "#" 300] ∧
    dialerNavigationDtmf "83914076399" "" ≠
      [.sendDtmf "83914076399#" 250, .sendDtmf "#" 250, .sendDtmf "#" 250] := by
  constructor
  · decide
  · decide

/-- C4 (amended): for meeting id "83914076399" with no passcode, the
navigation performs exactly two DTMF transmissions in order —
`"83914076399#"`, then a single `"#"` (the attendee-id skip in the agent
join sequence; the passcode skip in the ZoomDialer, which has no
attendee-id step) — and then reaches the confirmed-joined state
(`confirmJoined` → `IN_MEETING`); a third transmission never occurs. -/
theorem join_sequence_two_sends :
    joinSequenceDtmf "83914076399" none =
      [.sendDtmf "83914076399#" 300, .sendDtmf "#" 300] ∧
    dialerNavigationDtmf "83914076399" "" =
      [.sendDtmf "83914076399#" 250, .sendDtmf "#" 250] ∧
    (confirmJoined { initialDialer with state := .ENTER_PASSCODE }).state =
      .IN_MEETING := by
  refine ⟨by decide, by decide, by decide⟩

/-! ### Turn arbitration (src/gemini-live-agent.js, lines 401–429 and
544–557): the `isSpeaking` flag and `speakSafetyTimer`. -/

/-- Per-session turn-lock state: the `isSpeaking` flag and the pending
safety-expiry deadline (ms), `none` when no timer is armed. -/
structure TurnState where
  isSpeaking : Bool
  safetyTimer : Option Nat
deriving DecidableEq, Repr

/-- Initial module state: `isSpeaking = false`, no timer armed. -/
def initialTurnState : TurnState := ⟨false, none⟩

/-- JS `String.prototype.split(/\s+/)` on a char list: splits at maximal
whitespace runs, keeping the empty fragments that arise at a leading or
trailing separator (`"".split` yields `[""]`).  `prevWs` records whether
the previous character belonged to the current whitespace run (so a run
of several whitespace characters produces a single split point). -/
def splitWsAux (prevWs : Bool) (cur : List Char) : List Char → List (List Char)
  | [] => [cur.reverse]
  | c :: rest =>
    if jsIsWs c then
      if prevWs then splitWsAux true cur rest
      else cur.reverse :: splitWsAux true [] rest
    else splitWsAux false (c :: cur) rest

/-- The source expression `text.split(/\s+/).length`. -/
def jsWordCount (text : String) : Nat := (splitWsAux false [] text.data).length

/-- Safety-timer deadline of `onTextResponse`:
`wordCount * 400 + 5000` ms. -/
def estimatedMs (text : String) : Nat := jsWordCount text * 400 + 5000

/-- A request issued to the telephony collaborator. -/
inductive TelnyxAction
  | speakRequest (text : String)
deriving DecidableEq, Repr

/-- Callback `gemini.onTextResponse` (lines 403–429) as a state transformer.
Guard: `if (!callControlId || isSpeaking) return;`.  Otherwise the lock
is set and the safety timer armed with `estimatedMs text` before the
speak request goes out; `requestOk` is the outcome of that request —
on failure the `catch` clears the timer and the lock. -/
def onTextResponse (hasCall : Bool) (st : TurnState) (text : String)
    (requestOk : Bool) : TurnState × List TelnyxAction :=
  if hasCall = false ∨ st.isSpeaking then (st, [])
  else if requestOk then
    (⟨true, some (estimatedMs text)⟩, [.speakRequest text])
  else
    (⟨false, none⟩, [.speakRequest text])

/-- The safety timer firing (lines 410–415): `if (isSpeaking)` reset the
flag; either way the timer is no longer pending.  The callback only
logs — it can surface no error. -/
def safetyFireStep (st : TurnState) : TurnState :=
  if st.isSpeaking then ⟨false, none⟩
  else { st with safetyTimer := none }

/-- The `call.speak.ended` webhook branch (lines 548–551): cancel the
safety timer and clear `isSpeaking`; it performs no other action and
contains no throwing operation. -/
def endTurn (_st : TurnState) : TurnState := ⟨false, none⟩

/-- Events that touch the turn lock. -/
inductive TurnEvent
  | textResponse (text : String) (requestOk : Bool)
  | speakEnded
  | safetyFire
deriving DecidableEq, Repr

def turnStep (hasCall : Bool) (st : TurnState) :
    TurnEvent → TurnState × List TelnyxAction
  | .textResponse t ok => onTextResponse hasCall st t ok
  | .speakEnded => (endTurn st, [])
  | .safetyFire => (safetyFireStep st, [])

def runTurn (hasCall : Bool) (st : TurnState) : List TurnEvent → TurnState
  | [] => st
  | e :: es => runTurn hasCall (turnStep hasCall st e).1 es

/-- Whenever the lock is clear, no safety timer is pending (invariant,
preserved by every event). -/
theorem turnStep_inv (hasCall : Bool) (st : TurnState) (e : TurnEvent)
    (h : st.isSpeaking = false → st.safetyTimer = none) :
    (turnStep hasCall st e).1.isSpeaking = false →
      (turnStep hasCall st e).1.safetyTimer = none := by
  cases e with
  | textResponse t ok =>
    cases hsp : st.isSpeaking <;> cases hasCall <;> cases ok <;>
      simp_all [turnStep, onTextResponse]
  | speakEnded => simp [turnStep, endTurn]
  | safetyFire =>
    simp only [turnStep, safetyFireStep]
    by_cases hs : st.isSpeaking = true <;> simp_all

theorem runTurn_inv (hasCall : Bool) (evs : List TurnEvent) :
    ∀ st, (st.isSpeaking = false → st.safetyTimer = none) →
      ((runTurn hasCall st evs).isSpeaking = false →
        (runTurn hasCall st evs).safetyTimer = none) := by
  induction evs with
  | nil => intro st h; exact h
  | cons e es ih =>
    intro st h
    exact ih _ (turnStep_inv hasCall st e h)

/-- C9: idempotence of clearing the turn lock.  In any state reachable
from the initial module state, if the lock is already clear then the
`call.speak.ended` webhook path (`endTurn`) is a no-op: the state is
unchanged (and `endTurn` is a total function — it cannot throw). -/
theorem endTurn_idempotent (hasCall : Bool) (evs : List TurnEvent)
    (h : (runTurn hasCall initialTurnState evs).isSpeaking = false) :
    endTurn (runTurn hasCall initialTurnState evs) =
      runTurn hasCall initialTurnState evs := by
  have hinv := runTurn_inv hasCall evs initialTurnState (by intro; rfl) h
  cases hst : runTurn hasCall initialTurnState evs with
  | mk sp tm =>
    rw [hst] at h hinv
    simp at h hinv
    simp [endTurn, h, hinv]

/-- C9 witness: the initial state (empty event history) has the lock
clear, and `endTurn` leaves it unchanged. -/
theorem endTurn_idempotent_witness :
    (runTurn true initialTurnState []).isSpeaking = false ∧
    endTurn (runTurn true initialTurnState []) =
      runTurn true initialTurnState [] :=
  ⟨rfl, endTurn_idempotent true [] rfl⟩

/-! ### Inbound media gating (src/gemini-live-agent.js, lines 499–537)

The Telnyx media WebSocket message handler: only `media`/`inbound`
messages are considered; the frame is decoded (the carry is updated
regardless of the gates), then `if (!inMeeting) return;` and only after
that `if (isSpeaking) return;`; otherwise `gemini.sendAudio(pcm16k)`. -/

structure MediaMsg where
  event : String
  track : String
  payload : List Nat
deriving DecidableEq, Repr

inductive InboundOutcome
  | ignored
  | gatedJoin
  | gatedSpeaking
  | forwarded (pcm : List Int)
deriving DecidableEq, Repr

def handleMediaMessage (inMeeting isSpeaking : Bool) (carry : Int)
    (msg : MediaMsg) : InboundOutcome × Int :=
  if msg.event = "media" ∧ msg.track = "inbound" then
    let dec := ulawToPcm16k msg.payload carry
    if inMeeting = false then (.gatedJoin, dec.2)
    else if isSpeaking then (.gatedSpeaking, dec.2)
    else (.forwarded dec.1, dec.2)
  else (.ignored, carry)

/-- Holds exactly when the outcome called the speech endpoint
(`gemini.sendAudio`). -/
def sendsToSpeech : InboundOutcome → Bool
  | .forwarded _ => true
  | _ => false

/-- Feeding a sequence of messages through the handler with fixed gate
flags, threading the transcoder carry. -/
def processFrames (inMeeting isSpeaking : Bool) (carry : Int) :
    List MediaMsg → List InboundOutcome
  | [] => []
  | m :: rest =>
    let r := handleMediaMessage inMeeting isSpeaking carry m
    r.1 :: processFrames inMeeting isSpeaking r.2 rest

/-- C1: an inbound media frame is forwarded to the speech endpoint iff
the session is in the confirmed-joined state (`inMeeting`) and the turn
lock (`isSpeaking`) is clear; when not joined the outcome is
`gatedJoin` for every value of `isSpeaking` (the join-state gate is
evaluated before the turn-lock gate); and any sequence of frames
processed before the join confirmation (`inMeeting = false`, e.g. while
still entering the passcode) produces zero calls to the speech
endpoint. -/
theorem inbound_gating (inMeeting isSpeaking : Bool) (c : Int)
    (msg : MediaMsg) (frames : List MediaMsg)
    (hev : msg.event = "media") (htr : msg.track = "inbound") :
    ((handleMediaMessage inMeeting isSpeaking c msg).1 =
        .forwarded (ulawToPcm16k msg.payload c).1 ↔
      inMeeting = true ∧ isSpeaking = false) ∧
    (inMeeting = false →
      (handleMediaMessage inMeeting isSpeaking c msg).1 = .gatedJoin) ∧
    (∀ o ∈ processFrames false isSpeaking c frames, sendsToSpeech o = false) := by
  refine ⟨?_, ?_, ?_⟩
  · cases inMeeting <;> cases isSpeaking <;>
      simp [handleMediaMessage, hev, htr]
  · intro h
    subst h
    simp [handleMediaMessage, hev, htr]
  · clear hev htr msg
    induction frames generalizing c with
    | nil => simp [processFrames]
    | cons m rest ih =>
      intro o ho
      simp only [processFrames, List.mem_cons] at ho
      rcases ho with ho | ho
      · subst ho
        simp only [handleMediaMessage]
        by_cases hm : m.event = "media" ∧ m.track = "inbound" <;>
          simp [hm, sendsToSpeech]
      · exact ih _ o ho

/-- C1 witness: a concrete inbound media frame, forwarded once joined
with the lock clear, and a two-frame sequence fed before join
confirmation producing zero speech-endpoint calls. -/
theorem inbound_gating_witness :
    (MediaMsg.mk "media" "inbound" [7, 8]).event = "media" ∧
    (MediaMsg.mk "media" "inbound" [7, 8]).track = "inbound" ∧
    ((handleMediaMessage true false 0 (MediaMsg.mk "media" "inbound" [7, 8])).1 =
        .forwarded (ulawToPcm16k [7, 8] 0).1 ↔
      true = true ∧ false = false) ∧
    (∀ o ∈ processFrames false false 0
        [MediaMsg.mk "media" "inbound" [7, 8],
         MediaMsg.mk "media" "inbound" [9]],
      sendsToSpeech o = false) :=
  ⟨rfl, rfl,
   (inbound_gating true false 0 (MediaMsg.mk "media" "inbound" [7, 8])
      [] rfl rfl).1,
   (inbound_gating false false 0 (MediaMsg.mk "media" "inbound" [7, 8])
      [MediaMsg.mk "media" "inbound" [7, 8],
       MediaMsg.mk "media" "inbound" [9]] rfl rfl).2.2⟩

/-- C7: if the playback-finished webhook never arrives, the safety
timer still clears the turn lock.  From the initial state, a text
response arms the safety timer with the deadline
`wordCount × 400 + 5000` ms computed from the content; the timer firing
(`safetyFireStep`) clears `isSpeaking` while emitting no action (the
self-heal surfaces no error), after which inbound forwarding resumes
(a media/inbound frame is forwarded again). -/
theorem safety_timer_self_heal (text : String) (c : Int) (msg : MediaMsg) :
    (onTextResponse true initialTurnState text true).1.isSpeaking = true ∧
    (onTextResponse true initialTurnState text true).1.safetyTimer =
      some (jsWordCount text * 400 + 5000) ∧
    (safetyFireStep (onTextResponse true initialTurnState text true).1).isSpeaking
      = false ∧
    (turnStep true (onTextResponse true initialTurnState text true).1
      .safetyFire).2 = [] ∧
    (msg.event = "media" → msg.track = "inbound" →
      (handleMediaMessage true
        (safetyFireStep (onTextResponse true initialTurnState text true).1).isSpeaking
        c msg).1 = .forwarded (ulawToPcm16k msg.payload c).1) := by
  refine ⟨rfl, rfl, rfl, rfl, ?_⟩
  intro hev htr
  simp [handleMediaMessage, hev, htr, safetyFireStep, onTextResponse,
    initialTurnState]

/-- C7 witness: text "hello world" (deadline 2 × 400 + 5000 = 5800 ms),
then a concrete inbound frame forwarded after the timer fires. -/
theorem safety_timer_self_heal_witness :
    (onTextResponse true initialTurnState "hello world" true).1.safetyTimer =
      some 5800 ∧
    (handleMediaMessage true
      (safetyFireStep (onTextResponse true initialTurnState "hello world" true).1).isSpeaking
      0 (MediaMsg.mk "media" "inbound" [7])).1 =
        .forwarded (ulawToPcm16k [7] 0).1 :=
  ⟨by decide,
   (safety_timer_self_heal "hello world" 0
      (MediaMsg.mk "media" "inbound" [7])).2.2.2.2 rfl rfl⟩

/-- C8: at most one speak action in flight per session.
(1) Invoking the speak path while `isSpeaking` is set issues no request
and leaves the state unchanged; (2) a request is only ever issued from
a state with the lock clear and an active call, and on a successful
request the resulting state has the lock set (the lock is set before
the request goes out); (3) from a locked state, the only events that
clear the lock are the playback-ended webhook and the safety-timer
expiry; (4) a failed request leaves the lock clear. -/
theorem speak_mutual_exclusion (hasCall : Bool) (st : TurnState)
    (text : String) (requestOk : Bool) :
    (st.isSpeaking = true →
      onTextResponse hasCall st text requestOk = (st, [])) ∧
    ((onTextResponse hasCall st text requestOk).2 ≠ [] →
      st.isSpeaking = false ∧ hasCall = true) ∧
    ((onTextResponse hasCall st text true).2 ≠ [] →
      (onTextResponse hasCall st text true).1 =
        ⟨true, some (estimatedMs text)⟩) ∧
    (∀ e : TurnEvent, st.isSpeaking = true →
      (turnStep hasCall st e).1.isSpeaking = false →
      e = .speakEnded ∨ e = .safetyFire) ∧
    (hasCall = true → st.isSpeaking = false →
      (onTextResponse hasCall st text false).1.isSpeaking = false) := by
  refine ⟨?_, ?_, ?_, ?_, ?_⟩
  · intro h
    simp [onTextResponse, h]
  · cases hasCall <;> cases hsp : st.isSpeaking <;>
      simp [onTextResponse, hsp]
  · cases hasCall <;> cases hsp : st.isSpeaking <;>
      simp [onTextResponse, hsp]
  · intro e hsp hclr
    cases e with
    | textResponse t ok => simp_all [turnStep, onTextResponse]
    | speakEnded => exact Or.inl rfl
    | safetyFire => exact Or.inr rfl
  · intro hc hsp
    simp [onTextResponse, hc, hsp]

/-- C8 witness: with the lock already set, a further text response is a
no-op issuing no telephony request. -/
theorem speak_mutual_exclusion_witness :
    (TurnState.mk true (some 5800)).isSpeaking = true ∧
    onTextResponse true (TurnState.mk true (some 5800)) "hi" true =
      (TurnState.mk true (some 5800), []) :=
  ⟨rfl,
   (speak_mutual_exclusion true (TurnState.mk true (some 5800)) "hi" true).1 rfl⟩

end ZoomAgent
